import Mathlib

/-!
Verification development for the HTTP client facade in src/lib/http.service.ts.

The facade wraps an axios instance: a module-level authToken and default
Authorization header, a global response interceptor that normalizes transport
failures, a getErrorMessage lookup from HTTP status codes to labels, a
request method wrapping the call in try/catch, and five convenience wrappers.

Embedding notes.
The transport is abstract: a function from the issued call (header, method,
url, body) to a transport outcome, either a response carrying the decoded
body or an axios error object. The await of the underlying call is modelled
in the Except monad: a failed promise throws the value produced by the
registered response interceptor, and the try/catch of request handles that
throw. Optional JS values are Option; the nullish-coalescing operator is
Option.getD or the Option alternative; string truthiness is explicit.
-/

namespace HttpFacade

/-- HTTP methods accepted by HttpService.request. -/
inductive Method where
  | get
  | post
  | put
  | patch
  | delete
  deriving DecidableEq, Repr

/-- Body of a server error response as far as the code inspects it:
error.response.data.message may be absent. -/
structure ErrBody where
  message : Option String
  deriving DecidableEq, Repr

/-- Server response attached to a transport error, read as error.response:
present exactly when the server answered with a non-success status. -/
structure ErrResponse where
  status : Nat
  data : Option ErrBody
  deriving DecidableEq, Repr

/-- Raw transport (axios) error object: response is absent on a pure network
failure, and message is the transport detail text. -/
structure AxiosError where
  response : Option ErrResponse
  message : String
  deriving DecidableEq, Repr

/-- Successful transport response carrying the decoded body, as AxiosResponse. -/
structure AxiosResponse (T : Type) where
  data : T

/-- Outcome of the underlying transport for one issued call. -/
inductive TransportResult (T : Type) where
  | ok (r : AxiosResponse T)
  | err (e : AxiosError)

/-- Failure record of the ApiResponse interface; all three fields are optional
in the interface. -/
structure ApiError where
  message : Option String
  status : Option Nat
  errorMessage : Option String
  deriving DecidableEq, Repr

/-- ApiResponse interface: data is the payload or null, error is optional and
absent by default. -/
structure ApiResponse (T : Type) where
  data : Option T
  error : Option ApiError := none

/-- Rendering of getErrorMessage: the switch on the HTTP status code, with the
default branch returning the label Error. -/
def getErrorMessage (status : Option Nat) : String :=
  if status = some 400 then "Bad Request"
  else if status = some 401 then "Unauthorized"
  else if status = some 403 then "Forbidden"
  else if status = some 404 then "Not Found"
  else if status = some 500 then "Internal Server Error"
  else "Error"

/-- Shape of the value the response interceptor rejects with: message, status
and errorMessage, where message and errorMessage are always definite strings
by construction. -/
structure NormalizedError where
  message : String
  status : Option Nat
  errorMessage : String
  deriving DecidableEq, Repr

/-- Error branch of http.interceptors.response.use: status is
error.response.status when a response exists, message is
error.response.data.message falling back to error.message, and errorMessage
comes from the lookup. -/
def interceptorOnError (e : AxiosError) : NormalizedError :=
  let status := e.response.map fun r => r.status
  let message := ((e.response.bind fun r => r.data).bind fun d => d.message).getD e.message
  { message := message, status := status, errorMessage := getErrorMessage status }

/-- Success branch of the response interceptor: the identity on the response. -/
def interceptorOnSuccess {T : Type} (r : AxiosResponse T) : AxiosResponse T := r

/-- Dynamic view of a caught value inside the catch of request: the only two
properties the catch reads, response and message, each possibly undefined. -/
structure CaughtError where
  response : Option ErrResponse
  message : Option String

/-- View of the interceptor rejection value as the catch of request sees it:
the rejected object has message, status and errorMessage properties but no
response property, so reading response yields undefined while reading message
yields the normalized message. -/
def NormalizedError.asCaught (n : NormalizedError) : CaughtError :=
  { response := none, message := some n.message }

/-- Process-wide mutable state of the module: the authToken variable and the
default Authorization header of the axios instance. -/
structure HttpState where
  authToken : Option String
  authHeader : String
  deriving DecidableEq, Repr

/-- Value of the conditional used for the header: a token tested for JS
truthiness, so null and the empty string both give the empty header, and a
non-empty token gives Bearer followed by the token. -/
def bearerHeader : Option String → String
  | none => ""
  | some t => if t = "" then "" else "Bearer " ++ t

/-- Initial module state: authToken starts null and the header initializer
evaluates the same conditional on it, giving the empty header. -/
def initialState : HttpState :=
  { authToken := none, authHeader := bearerHeader none }

/-- HttpService.setAuthToken: stores the token and resets the default
Authorization header from the same conditional. -/
def setAuthToken (_s : HttpState) (token : Option String) : HttpState :=
  { authToken := token, authHeader := bearerHeader token }

/-- Arguments of the underlying call http bracket method (url, data), together
with the default Authorization header in force when the call is issued. -/
structure IssuedCall (B : Type) where
  header : String
  method : Method
  url : String
  body : Option B

/-- Abstract transport: what the network does with one issued call. -/
def Transport (T B : Type) := IssuedCall B → TransportResult T

/-- Call issued by request from the current state and its arguments. -/
def buildCall {B : Type} (s : HttpState) (m : Method) (url : String)
    (body : Option B) : IssuedCall B :=
  { header := s.authHeader, method := m, url := url, body := body }

/-- Semantics of awaiting the underlying call: a fulfilled promise yields the
response through the success branch of the interceptor, and a failed one
throws the value produced by the error branch of the interceptor. -/
def awaitCall {T : Type} (out : TransportResult T) :
    Except NormalizedError (AxiosResponse T) :=
  match out with
  | .ok r => .ok (interceptorOnSuccess r)
  | .err e => .error (interceptorOnError e)

/-- Catch block of HttpService.request: reads status from the caught value as
error.response.status, message as error.response.data.message falling back to
error.message, maps status through the lookup, and returns the failure
envelope with data null. -/
def catchBlock {T : Type} (caught : CaughtError) : ApiResponse T :=
  let status := caught.response.map fun r => r.status
  let message := ((caught.response.bind fun r => r.data).bind fun d => d.message) <|> caught.message
  { data := none
  , error := some { message := message, status := status, errorMessage := some (getErrorMessage status) } }

/-- HttpService.request: issues the call with the current default header, and
on success returns the envelope holding the decoded data; a throw from the
await is caught and turned into the failure envelope by the catch block. The
state is only read, never written, so it is returned unchanged. -/
def request {T B : Type} (s : HttpState) (tr : Transport T B) (m : Method)
    (url : String) (body : Option B) :
    HttpState × Except NormalizedError (ApiResponse T) :=
  (s, match awaitCall (tr (buildCall s m url body)) with
      | .ok r => .ok { data := some r.data }
      | .error n => .ok (catchBlock n.asCaught))

/-- HttpService.get: request with the get method and no body. -/
def get {T B : Type} (s : HttpState) (tr : Transport T B) (url : String) :
    HttpState × Except NormalizedError (ApiResponse T) :=
  request s tr Method.get url none

/-- HttpService.post: request with the post method and the given body. -/
def post {T B : Type} (s : HttpState) (tr : Transport T B) (url : String)
    (body : Option B) : HttpState × Except NormalizedError (ApiResponse T) :=
  request s tr Method.post url body

/-- HttpService.put: request with the put method and the given body. -/
def put {T B : Type} (s : HttpState) (tr : Transport T B) (url : String)
    (body : Option B) : HttpState × Except NormalizedError (ApiResponse T) :=
  request s tr Method.put url body

/-- HttpService.patch: request with the patch method and the given body. -/
def patch {T B : Type} (s : HttpState) (tr : Transport T B) (url : String)
    (body : Option B) : HttpState × Except NormalizedError (ApiResponse T) :=
  request s tr Method.patch url body

/-- HttpService.delete: request with the delete method and no body. -/
def delete {T B : Type} (s : HttpState) (tr : Transport T B) (url : String) :
    HttpState × Except NormalizedError (ApiResponse T) :=
  request s tr Method.delete url none

/-- Transport error observed for an HTTP 404 response with no decodable body. -/
def err404 : AxiosError :=
  { response := some { status := 404, data := none }
  , message := "Request failed with status code 404" }

/-- Helper: request always produces an ok result, whatever the transport does. -/
theorem request_ok_exists {T B : Type} (s : HttpState) (tr : Transport T B)
    (m : Method) (url : String) (body : Option B) :
    ∃ env, (request s tr m url body).2 = .ok env := by
  cases htr : tr (buildCall s m url body) with
  | ok r =>
    refine ⟨{ data := some r.data }, ?_⟩
    simp [request, awaitCall, htr, interceptorOnSuccess]
  | err e =>
    refine ⟨catchBlock (interceptorOnError e).asCaught, ?_⟩
    simp [request, awaitCall, htr]

/-- C5: getErrorMessage is a total function realizing the fixed lookup table,
mapping 400, 401, 403, 404 and 500 to their labels, an absent status to Error,
and every other status code to Error. -/
theorem C5_getErrorMessage_total_lookup :
    getErrorMessage (some 400) = "Bad Request" ∧
    getErrorMessage (some 401) = "Unauthorized" ∧
    getErrorMessage (some 403) = "Forbidden" ∧
    getErrorMessage (some 404) = "Not Found" ∧
    getErrorMessage (some 500) = "Internal Server Error" ∧
    getErrorMessage none = "Error" ∧
    ∀ n : Nat, n ∉ ([400, 401, 403, 404, 500] : List Nat) →
      getErrorMessage (some n) = "Error" := by
  refine ⟨rfl, rfl, rfl, rfl, rfl, rfl, ?_⟩
  intro n hn
  simp only [List.mem_cons, List.not_mem_nil, or_false, not_or] at hn
  obtain ⟨h1, h2, h3, h4, h5⟩ := hn
  simp [getErrorMessage, h1, h2, h3, h4, h5]

/-- Witness for C5 at the unknown status code 418. -/
theorem C5_witness : getErrorMessage (some 418) = "Error" :=
  C5_getErrorMessage_total_lookup.2.2.2.2.2.2 418 (by decide)

/-- C8: when the transport succeeds with decoded payload p, request returns
exactly the envelope holding data p with the error field absent. -/
theorem C8_success_envelope {T B : Type} (s : HttpState) (tr : Transport T B)
    (m : Method) (url : String) (body : Option B) (p : T)
    (h : tr (buildCall s m url body) = .ok ⟨p⟩) :
    (request s tr m url body).2 = .ok { data := some p, error := none } := by
  simp [request, awaitCall, h, interceptorOnSuccess]

/-- Witness for C8 with payload 1 on a get request. -/
theorem C8_witness :
    (request (T := Nat) (B := Unit) initialState (fun _ => .ok ⟨1⟩)
        Method.get "/items" none).2
      = .ok { data := some 1, error := none } :=
  C8_success_envelope initialState (fun _ => .ok ⟨1⟩) Method.get "/items" none 1 rfl

/-- C7: when the transport rejects with no server response, the envelope has
data null and a failure record with status absent and errorMessage Error,
carrying the transport message. -/
theorem C7_network_failure {T B : Type} (s : HttpState) (tr : Transport T B)
    (m : Method) (url : String) (body : Option B) (msg : String)
    (h : tr (buildCall s m url body) = .err { response := none, message := msg }) :
    (request s tr m url body).2
      = .ok { data := none
            , error := some { message := some msg, status := none, errorMessage := some "Error" } } := by
  simp [request, awaitCall, h, interceptorOnError, catchBlock,
    NormalizedError.asCaught, getErrorMessage]

/-- Witness for C7 on a concrete network failure. -/
theorem C7_witness :
    (request (T := Nat) (B := Unit) initialState
        (fun _ => .err { response := none, message := "Network Error" })
        Method.get "/items" none).2
      = .ok { data := none
            , error := some { message := some "Network Error", status := none
                            , errorMessage := some "Error" } } :=
  C7_network_failure initialState
    (fun _ => .err { response := none, message := "Network Error" })
    Method.get "/items" none "Network Error" rfl

/-- C1: evaluation at an HTTP 404 transport outcome. The interceptor alone
does compute status 404 and errorMessage Not Found, but the envelope returned
by request carries status none and errorMessage Error, because the catch
re-extracts status from the normalized rejection value, which has no response
property; only data null and the propagated message match the claim. -/
theorem C1_404_envelope_eval :
    interceptorOnError err404
      = { message := "Request failed with status code 404"
        , status := some 404, errorMessage := "Not Found" } ∧
    (request (T := Unit) (B := Unit) initialState (fun _ => .err err404)
        Method.get "/missing" none).2
      = .ok { data := none
            , error := some { message := some "Request failed with status code 404"
                            , status := none, errorMessage := some "Error" } } := by
  constructor <;> rfl

/-- C9: evaluation of both normalization layers on the same underlying 404
transport error: the interceptor rejection carries status 404 and errorMessage
Not Found, while the catch path of request produces a failure record with
status none and errorMessage Error, so the two layers disagree on status and
errorMessage for this error. -/
theorem C9_layers_disagree_eval :
    (interceptorOnError err404).status = some 404 ∧
    (interceptorOnError err404).errorMessage = "Not Found" ∧
    (request (T := Unit) (B := Unit) initialState (fun _ => .err err404)
        Method.get "/missing" none).2
      = .ok { data := none
            , error := some { message := some err404.message
                            , status := none, errorMessage := some "Error" } } ∧
    some 404 ≠ (none : Option Nat) ∧ "Not Found" ≠ "Error" := by
  refine ⟨rfl, rfl, rfl, by decide, by decide⟩

/-- C2: every envelope produced by request satisfies the invariant: either the
payload is present and the error field is absent, or the payload is null and
the failure record is present; never both, never neither. -/
theorem C2_envelope_invariant {T B : Type} (s : HttpState) (tr : Transport T B)
    (m : Method) (url : String) (body : Option B) (env : ApiResponse T)
    (h : (request s tr m url body).2 = .ok env) :
    (env.data.isSome ∧ env.error = none) ∨ (env.data = none ∧ env.error.isSome) := by
  cases htr : tr (buildCall s m url body) with
  | ok r =>
    simp [request, awaitCall, htr, interceptorOnSuccess] at h
    subst h
    left
    exact ⟨rfl, rfl⟩
  | err e =>
    simp [request, awaitCall, htr] at h
    subst h
    right
    exact ⟨rfl, rfl⟩

/-- Witness for C2 on a successful get returning payload 1. -/
theorem C2_witness :
    (({ data := some 1, error := none } : ApiResponse Nat).data.isSome ∧
      ({ data := some 1, error := none } : ApiResponse Nat).error = none) ∨
    (({ data := some 1, error := none } : ApiResponse Nat).data = none ∧
      ({ data := some 1, error := none } : ApiResponse Nat).error.isSome) :=
  C2_envelope_invariant initialState (fun _ => .ok ⟨1⟩) Method.get "/a"
    (none : Option Unit) _ rfl

/-- C3: for every state, transport behavior, method, url and body, request and
each convenience wrapper resolve to an envelope: the result is always ok and
never a thrown error. -/
theorem C3_never_throws {T B : Type} (s : HttpState) (tr : Transport T B)
    (m : Method) (url : String) (body : Option B) :
    (∃ env, (request s tr m url body).2 = .ok env) ∧
    (∃ env, (get s tr url).2 = .ok env) ∧
    (∃ env, (post s tr url body).2 = .ok env) ∧
    (∃ env, (put s tr url body).2 = .ok env) ∧
    (∃ env, (patch s tr url body).2 = .ok env) ∧
    (∃ env, (delete s tr url).2 = .ok env) :=
  ⟨request_ok_exists s tr m url body,
   request_ok_exists s tr Method.get url none,
   request_ok_exists s tr Method.post url body,
   request_ok_exists s tr Method.put url body,
   request_ok_exists s tr Method.patch url body,
   request_ok_exists s tr Method.delete url none⟩

/-- C6: each convenience wrapper equals request at its fixed method with
identical arguments; get and delete pass no body. -/
theorem C6_wrappers_are_request {T B : Type} (s : HttpState) (tr : Transport T B)
    (url : String) (body : Option B) :
    get s tr url = request s tr Method.get url none ∧
    post s tr url body = request s tr Method.post url body ∧
    put s tr url body = request s tr Method.put url body ∧
    patch s tr url body = request s tr Method.patch url body ∧
    delete s tr url = request s tr Method.delete url none :=
  ⟨rfl, rfl, rfl, rfl, rfl⟩

/-- C4 counterexample: the empty string is a non-null token, yet after
setAuthToken with it the header is the empty string rather than Bearer
followed by the token, because the conditional tests JS truthiness. -/
theorem C4_counterexample :
    (setAuthToken initialState (some "")).authHeader = "" ∧
    (setAuthToken initialState (some "")).authHeader ≠ "Bearer " ++ "" := by
  refine ⟨rfl, by decide⟩

/-- C4 amended: setAuthToken always stores the token and cannot fail; the
header becomes Bearer followed by the token when the token is non-null and
non-empty, and the empty string when the token is null or empty; every
subsequent request issues its call carrying exactly the stored header. -/
theorem C4_amended_setAuthToken {B : Type} (s : HttpState) (t : Option String)
    (m : Method) (url : String) (body : Option B) :
    (setAuthToken s t).authToken = t ∧
    (setAuthToken s t).authHeader
      = (match t with
         | none => ""
         | some tok => if tok = "" then "" else "Bearer " ++ tok) ∧
    (buildCall (setAuthToken s t) m url body).header = (setAuthToken s t).authHeader := by
  refine ⟨rfl, ?_, rfl⟩
  cases t <;> rfl

/-- C10: request and every convenience wrapper return the process-wide state,
token and header, unchanged for every transport outcome; among the modelled
operations only setAuthToken produces a different state. -/
theorem C10_request_preserves_state {T B : Type} (s : HttpState) (tr : Transport T B)
    (m : Method) (url : String) (body : Option B) :
    (request s tr m url body).1 = s ∧
    (get s tr url).1 = s ∧
    (post s tr url body).1 = s ∧
    (put s tr url body).1 = s ∧
    (patch s tr url body).1 = s ∧
    (delete s tr url).1 = s :=
  ⟨rfl, rfl, rfl, rfl, rfl, rfl⟩

end HttpFacade
